import Mathlib

/-!
Shallow embedding of the command-handling engine of the sol MQTT broker
(the `handlers.c` translation unit: the ten command handlers, the
`publish_message` fan-out and the `handle_command` dispatcher), together
with theorems settling the specification claims about it.

Modelling conventions:
* C strings and byte buffers are `List Nat` (one `Nat` per byte, no NUL
  terminator; end of list plays the role of the terminator).
* The fd-indexed global client table `sol.clients[..]` is a function
  `Nat → Client`; a pointer to a client is the fd index of its slot.
* The topic trie is represented by the list of the topics it holds
  (each trie node with a payload), keyed by name.
* The external MQTT codec (`mqtt_pack` / `mqtt_size`) is an explicit
  parameter `enc : MqttPacket → List Nat`; `mqtt_size pkt` is
  `(enc pkt).length`.  Writing a packet at `wbuf + towrite` is modelled
  as appending to the staged byte list, with `towrite` advanced by the
  size the C code adds.
* The packet memory pool is a fresh-reference counter plus a log of the
  references passed to `memorypool_free`; a double free shows up as a
  repeated entry in the log.
* The packet-id allocator `next_free_mid` lives outside this translation
  unit; it is an explicit parameter `alloc : Client → Nat`.
-/

/-! ## Protocol constants (from mqtt.h) -/

def AT_MOST_ONCE : Nat := 0
def AT_LEAST_ONCE : Nat := 1
def EXACTLY_ONCE : Nat := 2

/-- Control-packet type codes (high nibble of the fixed header). -/
def CONNECT : Nat := 1
def PUBLISH : Nat := 3
def PUBACK : Nat := 4
def PUBREC : Nat := 5
def PUBREL : Nat := 6
def PUBCOMP : Nat := 7
def SUBSCRIBE : Nat := 8
def UNSUBACK : Nat := 11
def PINGREQ : Nat := 12
def DISCONNECT : Nat := 14

/-- Pre-built fixed-header bytes. -/
def CONNACK_B : Nat := 0x20
def PUBLISH_B : Nat := 0x30
def PUBACK_B : Nat := 0x40
def PUBREC_B : Nat := 0x50
def SUBACK_B : Nat := 0x90
def PINGRESP_B : Nat := 0xD0

def MQTT_HEADER_LEN : Nat := 2
def MQTT_ACK_LEN : Nat := 4
def MQTT_CLIENT_ID_LEN : Nat := 64

def MQTT_CONNECTION_ACCEPTED : Nat := 0
def MQTT_BAD_USERNAME_OR_PASSWORD : Nat := 4
def MQTT_NOT_AUTHORIZED : Nat := 5

/-- Byte code of the topic-level separator character `/`. -/
def slashC : Nat := 47
/-- Byte code of the multi-level wildcard character `#`. -/
def hashC : Nat := 35

/-! ## The packet data model (union mqtt_packet and its members) -/

/-- The fixed header bit-field view (`union mqtt_header`): `retain` is
bit 0, `qos` bits 1-2, `dup` bit 3 and `type` the high nibble, as in the
C bit-field declaration. -/
structure MqttHeader where
  retain : Nat
  qos : Nat
  dup : Nat
  type : Nat
deriving DecidableEq

/-- Reading the whole `byte` member of the header union. -/
def byte_of_header (h : MqttHeader) : Nat :=
  h.retain + 2 * h.qos + 8 * h.dup + 16 * h.type

/-- Writing the whole `byte` member of the header union. -/
def header_of_byte (b : Nat) : MqttHeader :=
  ⟨b % 2, b / 2 % 4, b / 8 % 2, b / 16 % 16⟩

structure MqttConnectBits where
  clean_session : Bool
  will : Bool
  will_qos : Nat
  will_retain : Bool
  password : Bool
  username : Bool
deriving DecidableEq

structure MqttConnectPayload where
  keepalive : Nat
  client_id : List Nat
  username : List Nat
  password : List Nat
  will_topic : List Nat
  will_message : List Nat
deriving DecidableEq

structure MqttConnect where
  bits : MqttConnectBits
  payload : MqttConnectPayload
deriving DecidableEq

structure MqttConnack where
  byte : Nat
  rc : Nat
deriving DecidableEq

structure MqttPublish where
  pkt_id : Nat
  topiclen : Nat
  topic : List Nat
  payloadlen : Nat
  payload : List Nat
deriving DecidableEq

structure MqttAck where
  pkt_id : Nat
deriving DecidableEq

structure MqttSuback where
  pkt_id : Nat
  rcs : List Nat
deriving DecidableEq

/-- One `(topic, qos)` tuple of a SUBSCRIBE packet; `topic_len` is the
length field decoded from the wire, carried separately from the bytes
exactly as in the C struct. -/
structure SubTuple where
  topic_len : Nat
  topic : List Nat
  qos : Nat
deriving DecidableEq

structure MqttSubscribe where
  pkt_id : Nat
  tuples : List SubTuple
deriving DecidableEq

structure UnsubTuple where
  topic_len : Nat
  topic : List Nat
deriving DecidableEq

structure MqttUnsubscribe where
  pkt_id : Nat
  tuples : List UnsubTuple
deriving DecidableEq

/-- `union mqtt_packet`, modelled as the product of its members: only
the member selected by the header type is meaningful, the others stand
for the union's inactive storage. -/
structure MqttPacket where
  header : MqttHeader
  connect : MqttConnect
  connack : MqttConnack
  publish : MqttPublish
  ack : MqttAck
  suback : MqttSuback
  subscribe : MqttSubscribe
  unsubscribe : MqttUnsubscribe
deriving DecidableEq

def emptyHeader : MqttHeader := ⟨0, 0, 0, 0⟩

/-- A zeroed packet, standing for uninitialised packet storage. -/
def emptyPacket : MqttPacket :=
  { header := emptyHeader
    connect := ⟨⟨false, false, 0, false, false, false⟩, ⟨0, [], [], [], [], []⟩⟩
    connack := ⟨0, 0⟩
    publish := ⟨0, 0, [], 0, []⟩
    ack := ⟨0⟩
    suback := ⟨0, []⟩
    subscribe := ⟨0, []⟩
    unsubscribe := ⟨0, []⟩ }

/-! ## Sessions, topics and broker state -/

/-- `struct inflight_msg`.  The owning client back-pointer is implicit
(the entry lives inside its client); `packetRef` is the pool reference
of the stored packet pointer (0 for packets that were not obtained from
the pool, such as the stack-allocated stub ack).  `sent_timestamp` is
written with `time(NULL)` in C; wall-clock time is external, modelled
as 0. -/
structure InflightMsg where
  in_use : Bool
  packet : MqttPacket
  packetRef : Nat
  size : Nat
  sent_timestamp : Nat
deriving DecidableEq

def emptyInflight : InflightMsg := ⟨false, emptyPacket, 0, 0, 0⟩

/-- `struct client` (the Session record). -/
structure Client where
  online : Bool
  clean_session : Bool
  client_id : List Nat
  subscriptions : List (List Nat)
  outgoing_msgs : List MqttPacket
  i_msgs : Nat → InflightMsg
  i_acks : Nat → InflightMsg
  in_i_acks : Nat → InflightMsg
  has_inflight : Bool
  has_lwt : Bool
  lwt_msg : MqttPacket
  wbuf : List Nat
  towrite : Nat

def emptyClient : Client :=
  { online := false
    clean_session := false
    client_id := []
    subscriptions := []
    outgoing_msgs := []
    i_msgs := fun _ => emptyInflight
    i_acks := fun _ => emptyInflight
    in_i_acks := fun _ => emptyInflight
    has_inflight := false
    has_lwt := false
    lwt_msg := emptyPacket
    wbuf := []
    towrite := 0 }

/-- One entry of a topic's subscriber map (`struct subscriber`): the
hashtable key (the client id at insertion time), the pointer to the
client (its fd slot) and the granted QoS.  The C record also counts
`refs` for sharing across topics; pointer sharing is not representable
with value semantics and no claim depends on it. -/
structure TopicSub where
  key : List Nat
  client_fd : Nat
  qos : Nat
deriving DecidableEq

/-- `struct topic`. -/
structure Topic where
  name : List Nat
  subscribers : List TopicSub
  retained_msg : Option (List Nat)
deriving DecidableEq

/-- The broker-wide state `struct sol` plus the collaborators the
handlers touch: the fd-indexed client table, the topic store, the
authentication table, the packet pool (fresh counter + free log), the
metric counters and the reactor's write queue
(`enqueue_event_write`). -/
structure Sol where
  clients : Nat → Client
  topics : List Topic
  authentications : List (List Nat × List Nat)
  pool_next : Nat
  pool_freed : List Nat
  messages_sent : Nat
  messages_recv : Nat
  write_queue : List Nat

def emptySol : Sol :=
  { clients := fun _ => emptyClient
    topics := []
    authentications := []
    pool_next := 0
    pool_freed := []
    messages_sent := 0
    messages_recv := 0
    write_queue := [] }

/-- `struct io_event`: the decoded packet and the client it came from
(the fd of the client's slot; `e->client` is `&sol.clients[e.fd]`). -/
structure IoEvent where
  fd : Nat
  data : MqttPacket

/-- Handler outcomes: `REPLY`, `NOREPLY`, `-ERRCLIENTDC` and the two
CONNACK reject codes returned by `connect_handler`. -/
inductive HandlerOut where
  | reply
  | noreply
  | clientdc
  | bad_username_or_password
  | not_authorized
deriving DecidableEq

/-! ## Store helpers and modelled collaborators -/

/-- Writing through a client pointer: update the fd slot. -/
def setClient (sol : Sol) (fd : Nat) (c : Client) : Sol :=
  { sol with clients := Function.update sol.clients fd c }

/-- `sol_topic_get`: exact-name lookup in the topic store. -/
def sol_topic_get (sol : Sol) (nm : List Nat) : Option Topic :=
  sol.topics.find? (fun t => t.name == nm)

/-- Modelled from the spec: `sol_topic_get_or_create` of the TopicTree
(missing `sol.c`): return the topic with this name, creating and
storing an empty one when absent. -/
def sol_topic_get_or_create (sol : Sol) (nm : List Nat) : Sol × Topic :=
  match sol_topic_get sol nm with
  | some t => (sol, t)
  | none =>
      ({ sol with topics := sol.topics ++ [⟨nm, [], none⟩] }, ⟨nm, [], none⟩)

/-- Apply `f` to the stored topic(s) named `nm`, leaving others alone
(writing through a topic pointer obtained by name). -/
def setTopicF (sol : Sol) (nm : List Nat) (f : Topic → Topic) : Sol :=
  { sol with topics := sol.topics.map fun t => if t.name == nm then f t else t }

/-- Modelled from the spec: `hashtable_put` on a subscriber map keyed by
client id (missing `hashtable.c`): replace the entry with the same key,
else add. -/
def subs_put (l : List TopicSub) (s : TopicSub) : List TopicSub :=
  if l.any (fun x => x.key == s.key) then
    l.map fun x => if x.key == s.key then s else x
  else l ++ [s]

/-- Modelled from the spec: `topic_add_subscriber` (missing `topic.c`,
§4.3 step 3): install a subscriber record for the client on the one
topic. -/
def topic_add_subscriber (sol : Sol) (nm : List Nat) (cid : List Nat)
    (fd qos : Nat) : Sol :=
  setTopicF sol nm fun t => { t with subscribers := subs_put t.subscribers ⟨cid, fd, qos⟩ }

/-- Modelled from the spec: `topic_del_subscriber` (missing `topic.c`,
§4.4): remove the client's entry from the topic's subscriber map. -/
def topic_del_subscriber (sol : Sol) (nm : List Nat) (cid : List Nat) : Sol :=
  setTopicF sol nm fun t =>
    { t with subscribers := t.subscribers.filter fun s => !(s.key == cid) }

/-- Modelled from the spec: `list_push` (missing `list.c`): enqueue at
the tail, so that front-to-back iteration replays in FIFO order
(§8 invariant 6). -/
def list_push {α : Type} (l : List α) (x : α) : List α := l ++ [x]

/-- `hashtable_get` on the authentications table: lookup by username. -/
def hashtable_get (tbl : List (List Nat × List Nat)) (k : List Nat) :
    Option (List Nat) :=
  (tbl.find? fun e => e.1 == k).map fun e => e.2

/-- Does `pre` start the list `l`? (string prefix test over bytes). -/
def starts_with : List Nat → List Nat → Bool
  | [], _ => true
  | _ :: _, [] => false
  | a :: as, b :: bs => a == b && starts_with as bs

/-- C `strncmp` over byte lists, the end of a list standing for the NUL
terminator: the (signed) difference of the first differing bytes within
the first `n` positions, 0 when no difference is found. -/
def strncmp : List Nat → List Nat → Nat → Int
  | _, _, 0 => 0
  | [], [], _ + 1 => 0
  | [], y :: _, _ + 1 => 0 - (y : Int)
  | x :: _, [], _ + 1 => (x : Int)
  | x :: xs, y :: ys, n + 1 =>
      if x = y then (if x = 0 then 0 else strncmp xs ys n)
      else (x : Int) - (y : Int)

/-- Modelled from the spec: `mqtt_pack_mono` of the external codec
stages a fixed-size (`MQTT_ACK_LEN`) ack of the given type and packet
id: type byte, remaining length 2, id MSB, id LSB. -/
def mqtt_pack_mono (ty pkt_id : Nat) : List Nat :=
  [ty, 2, pkt_id / 256 % 256, pkt_id % 256]

/-! ## The publish fan-out (`publish_message`, lines 74-160) -/

/-- The delivery record of one `mqtt_pack` into a subscriber's buffer
performed by the fan-out: the subscriber's client slot, the
subscriber's granted QoS and the packet value that was encoded. -/
structure Delivery where
  client_fd : Nat
  sub_qos : Nat
  packet : MqttPacket
deriving DecidableEq

/-- Lines 97-107 of the loop body: downgrade the header QoS to the
minimum of the original QoS and the subscriber QoS, compute the
per-subscriber size (`mqtt_size`, before the packet id is touched) and
zero the packet id. -/
def fan_adjust (enc : MqttPacket → List Nat) (q subqos : Nat)
    (pkt : MqttPacket) : MqttPacket × Nat :=
  let pkt := { pkt with header := { pkt.header with qos := if q ≥ subqos then subqos else q } }
  let len := (enc pkt).length
  ({ pkt with publish := { pkt.publish with pkt_id := 0 } }, len)

/-- The packet value the online arm of the loop encodes for the
subscriber: the downgraded packet, with a fresh id from `next_free_mid`
installed when its QoS is above 0 (lines 123-125). -/
def fan_pkt_out (enc : MqttPacket → List Nat) (alloc : Client → Nat)
    (q : Nat) (sub : TopicSub) (pkt : MqttPacket) (sc : Client) : MqttPacket :=
  let pkt1 := (fan_adjust enc q sub.qos pkt).1
  if AT_MOST_ONCE < pkt1.header.qos then
    { pkt1 with publish := { pkt1.publish with pkt_id := alloc sc } }
  else pkt1

/-- The subscriber's client after the online arm of the loop body
(lines 119-143): inflight registration at QoS above 0, then the pack
into `wbuf` and the `towrite` advance. -/
def fan_client_out (enc : MqttPacket → List Nat) (alloc : Client → Nat)
    (q pktRef : Nat) (sub : TopicSub) (pkt : MqttPacket) (sc : Client) : Client :=
  let pkt1 := (fan_adjust enc q sub.qos pkt).1
  let len := (fan_adjust enc q sub.qos pkt).2
  let pkt2 := fan_pkt_out enc alloc q sub pkt sc
  let sc1 :=
    if AT_MOST_ONCE < pkt1.header.qos then
      let mid := alloc sc
      let scA :=
        if (sc.i_msgs pkt2.publish.pkt_id).in_use = false then
          { sc with i_msgs := Function.update sc.i_msgs mid ⟨true, pkt2, pktRef, len, 0⟩ }
        else sc
      let scB :=
        if (scA.i_acks mid).in_use = false then
          -- stub ack: header .byte is set to the PUBACK/PUBREC type code
          let ty := if sub.qos = AT_LEAST_ONCE then PUBACK else PUBREC
          let ack : MqttPacket :=
            { emptyPacket with header := header_of_byte ty, ack := ⟨mid⟩ }
          { scA with i_acks := Function.update scA.i_acks mid ⟨true, ack, 0, len, 0⟩ }
        else scA
      { scB with has_inflight := true }
    else sc
  { sc1 with wbuf := sc1.wbuf ++ enc pkt2, towrite := sc1.towrite + len }

/-- The loop body of `publish_message` for one subscriber (lines
88-158).  Returns the (shared, mutated) packet, the new broker state
and the delivery performed, if any. -/
def publish_step (enc : MqttPacket → List Nat) (alloc : Client → Nat)
    (q pktRef : Nat) (sub : TopicSub) (pkt : MqttPacket) (sol : Sol) :
    MqttPacket × Sol × Option Delivery :=
  let sc := sol.clients sub.client_fd
  let pkt1 := (fan_adjust enc q sub.qos pkt).1
  if sc.online = false then
    -- offline: queue when the session is persistent, else drop; continue
    if sc.clean_session = false then
      (pkt1,
       setClient sol sub.client_fd
         { sc with outgoing_msgs := list_push sc.outgoing_msgs pkt1 },
       none)
    else (pkt1, sol, none)
  else
    let pkt2 := fan_pkt_out enc alloc q sub pkt sc
    let sol1 := setClient sol sub.client_fd (fan_client_out enc alloc q pktRef sub pkt sc)
    let sol2 := { sol1 with
                  write_queue := sol1.write_queue ++ [sub.client_fd],
                  messages_sent := sol1.messages_sent + 1 }
    (pkt2, sol2, some ⟨sub.client_fd, sub.qos, pkt2⟩)

/-- The subscriber iteration of `publish_message`, threading the shared
packet through the loop and collecting the deliveries in order. -/
def publish_fan (enc : MqttPacket → List Nat) (alloc : Client → Nat)
    (q pktRef : Nat) :
    List TopicSub → MqttPacket → Sol → MqttPacket × Sol × List Delivery
  | [], _pkt, sol => (_pkt, sol, [])
  | sub :: rest, pkt, sol =>
      let r1 := publish_step enc alloc q pktRef sub pkt sol
      let r2 := publish_fan enc alloc q pktRef rest r1.1 r1.2.1
      (r2.1, r2.2.1,
       match r1.2.2 with
       | some d => d :: r2.2.2
       | none => r2.2.2)

/-- `publish_message` (lines 74-160): saves the original QoS, returns
unchanged when the topic has no subscribers, else runs the loop. -/
def publish_message (enc : MqttPacket → List Nat) (alloc : Client → Nat)
    (pkt : MqttPacket) (pktRef : Nat) (t : Topic) (sol : Sol) : Sol :=
  let q := pkt.header.qos
  if t.subscribers.length = 0 then sol
  else (publish_fan enc alloc q pktRef t.subscribers pkt sol).2.1

/-! ## CONNECT (lines 166-330) -/

/-- `set_payload_connack` (lines 166-179): stage a CONNACK with the
given return code and `session_present=0`. -/
def set_payload_connack (enc : MqttPacket → List Nat) (c : Client) (rc : Nat) : Client :=
  let session_present : Nat := 0
  let connect_flags : Nat := 0 ||| (session_present &&& 1)
  let response : MqttPacket :=
    { emptyPacket with header := header_of_byte CONNACK_B, connack := ⟨connect_flags, rc⟩ }
  { c with wbuf := c.wbuf ++ enc response, towrite := c.towrite + MQTT_ACK_LEN }

/-- `connect_handler` (lines 181-330).  `cp` is the external
`check_passwd` (crypt-based, `util.c`); `anon` is `conf->allow_anonymous`;
`genid` is the id produced by `generate_random_id` (wall-clock based,
`util.c`). -/
def connect_handler (enc : MqttPacket → List Nat)
    (cp : List Nat → List Nat → Bool) (anon : Bool) (genid : List Nat)
    (e : IoEvent) (sol : Sol) : Sol × HandlerOut :=
  let c := e.data.connect
  -- authentication gate (lines 190-201)
  let authFail : Bool :=
    if anon then false
    else if c.bits.username = false || c.bits.password = false then true
    else match hashtable_get sol.authentications c.payload.username with
      | none => true
      | some salt => !(cp c.payload.password salt)
  if authFail then
    -- goto bad_auth (lines 317-322)
    (setClient sol e.fd (set_payload_connack enc (sol.clients e.fd) MQTT_BAD_USERNAME_OR_PASSWORD),
     HandlerOut.bad_username_or_password)
  else
    -- `!c->payload.client_id[0]`: empty client id (first byte NUL)
    let idEmpty : Bool := c.payload.client_id.getD 0 0 == 0
    if idEmpty ∧ c.bits.clean_session = false then
      -- goto not_authorized (lines 324-329)
      (setClient sol e.fd (set_payload_connack enc (sol.clients e.fd) MQTT_NOT_AUTHORIZED),
       HandlerOut.not_authorized)
    else
      let pid := if idEmpty then genid else c.payload.client_id
      -- resuming a persistent session: replay the offline queue (lines 216-235)
      let sol1 :=
        if !idEmpty ∧ c.bits.clean_session = false ∧
            0 < (sol.clients e.fd).outgoing_msgs.length then
          let cc := sol.clients e.fd
          let cc := cc.outgoing_msgs.foldl
            (fun acc m => { acc with wbuf := acc.wbuf ++ enc m,
                                     towrite := acc.towrite + (enc m).length }) cc
          { setClient sol e.fd cc with write_queue := sol.write_queue ++ [e.fd] }
        else sol
      -- double-CONNECT check (lines 237-247): note the `strncmp == 1`
      -- comparison, taken verbatim from the source
      if (sol1.clients e.fd).online = true ∧
          strncmp (sol1.clients e.fd).client_id pid MQTT_CLIENT_ID_LEN = 1 then
        (sol1, HandlerOut.clientdc)
      else
        let cc := sol1.clients e.fd
        let cc := { cc with client_id := pid.take MQTT_CLIENT_ID_LEN }  -- strncpy, line 258
        -- Last Will and Testament (lines 260-296)
        let lwtRes :=
          if c.bits.will then
            let wt := c.payload.will_topic
            let wm := c.payload.will_message
            let ccw := { cc with has_lwt := true }
            -- topic get-or-create; the following `sol_topic_exists` test is
            -- false right after creation, so no further store write happens
            let solw := (sol_topic_get_or_create sol1 wt).1
            let lwt : MqttPacket :=
              { emptyPacket with
                header := { header_of_byte PUBLISH_B with qos := c.bits.will_qos },
                publish := ⟨0, wt.length, wt, wm.length, wm⟩ }
            let ccw := { ccw with lwt_msg := lwt }
            let solw :=
              if c.bits.will_retain then
                setTopicF solw wt fun t => { t with retained_msg := some (enc lwt) }
              else solw
            (solw, ccw)
          else (sol1, cc)
        let sol2 := lwtRes.1
        let cc := lwtRes.2
        let cc := { cc with clean_session := c.bits.clean_session }
        let cc :=
          if c.bits.clean_session = true then
            { cc with subscriptions := [], outgoing_msgs := [] }
          else cc
        let cc := set_payload_connack enc cc MQTT_CONNECTION_ACCEPTED
        (setClient sol2 e.fd cc, HandlerOut.reply)

/-! ## DISCONNECT (lines 332-348) -/

/-- `disconnect_handler`: when the session is clean, walk the
subscription list removing the client from each topic; always return
the client-disconnect outcome. -/
def disconnect_handler (e : IoEvent) (sol : Sol) : Sol × HandlerOut :=
  let c := sol.clients e.fd
  let sol1 :=
    if c.clean_session = true ∧ c.subscriptions.length ≠ 0 then
      c.subscriptions.foldl (fun s nm => topic_del_subscriber s nm c.client_id) sol
    else sol
  (sol1, HandlerOut.clientdc)

/-! ## SUBSCRIBE (lines 350-437) -/

/-- The wildcard test of lines 390-391 on a SUBSCRIBE tuple:
`topic[len-1] == '#' && topic[len-2] == '/'`. -/
def endsWildcard (tp : SubTuple) : Bool :=
  tp.topic.getD (tp.topic_len - 1) 0 == hashC &&
  tp.topic.getD (tp.topic_len - 2) 0 == slashC

/-- The topic normalisation of lines 385-397: strip a trailing `#`
(wildcard), else append a `/` when missing.  Returns the normalised
name and whether the wildcard branch was taken. -/
def norm_topic_sub (tp : SubTuple) : List Nat × Bool :=
  if endsWildcard tp then (tp.topic.take (tp.topic_len - 1), true)
  else if !(tp.topic.getD (tp.topic_len - 1) 0 == slashC) then
    (tp.topic.take tp.topic_len ++ [slashC], false)
  else (tp.topic.take tp.topic_len, false)

/-- `recursive_sub` (lines 350-362) applied to one topic with a payload:
install the subscriber record in the topic's map. -/
def recursive_sub (cid : List Nat) (fd qos : Nat) (t : Topic) : Topic :=
  { t with subscribers := subs_put t.subscribers ⟨cid, fd, qos⟩ }

/-- Modelled from the spec: `trie_prefix_map(sol.topics.root, topic,
recursive_sub, sub)` (missing `trie.c`, §3 TopicTree): apply
`recursive_sub` to every stored topic whose name extends the prefix;
for a non-clean session also track each such topic in the client's
subscription list, as `recursive_sub` does. -/
def trie_prefix_map (sol : Sol) (pre : List Nat) (fd qos : Nat) : Sol :=
  let c := sol.clients fd
  let matched := sol.topics.filter fun t => starts_with pre t.name
  let sol1 := { sol with
    topics := sol.topics.map fun t =>
      if starts_with pre t.name then recursive_sub c.client_id fd qos t else t }
  let c1 :=
    if c.clean_session = false then
      { c with subscriptions := c.subscriptions ++ matched.map Topic.name }
    else c
  setClient sol1 fd c1

/-- The retained-message staging of lines 413-419: when the topic holds
retained bytes, `memcpy` them into `wbuf` and advance `towrite`. -/
def stage_retained (ret : Option (List Nat)) (c : Client) : Client :=
  match ret with
  | some r => { c with wbuf := c.wbuf ++ r, towrite := c.towrite + r.length }
  | none => c

/-- The loop body of `subscribe_handler` for one tuple (lines 377-421).
The accumulator carries the broker state, the loop-scoped `wildcard`
flag (declared once, before the loop, line 366) and the SUBACK
return-code list built so far. -/
def subscribe_step (fd : Nat)
    (a : Sol × Bool × List Nat) (tp : SubTuple) : Sol × Bool × List Nat :=
  let sol := a.1
  let w := a.2.1 || (norm_topic_sub tp).2
  let nm := (norm_topic_sub tp).1
  let sol1 := (sol_topic_get_or_create sol nm).1
  let sol2 := if w = true then trie_prefix_map sol1 nm fd tp.qos else sol1
  let sol3 := topic_add_subscriber sol2 nm (sol2.clients fd).client_id fd tp.qos
  let c := sol3.clients fd
  let c := { c with subscriptions := list_push c.subscriptions nm }
  let c := stage_retained ((sol_topic_get sol3 nm).bind Topic.retained_msg) c
  (setClient sol3 fd c, w, a.2.2 ++ [tp.qos])

/-- `subscribe_handler` (lines 364-437): process every tuple, then
stage a SUBACK carrying the granted-QoS list. -/
def subscribe_handler (enc : MqttPacket → List Nat) (e : IoEvent) (sol : Sol) :
    Sol × HandlerOut :=
  let s := e.data.subscribe
  let a := s.tuples.foldl (subscribe_step e.fd) (sol, false, [])
  let c := (a.1).clients e.fd
  let pkt : MqttPacket :=
    { emptyPacket with header := header_of_byte SUBACK_B, suback := ⟨s.pkt_id, a.2.2⟩ }
  let len := (enc pkt).length
  let c := { c with wbuf := c.wbuf ++ enc pkt, towrite := c.towrite + len }
  (setClient a.1 e.fd c, HandlerOut.reply)

/-! ## UNSUBSCRIBE (lines 439-461) -/

/-- `unsubscribe_handler`: for each filter, exact-lookup the topic (no
normalisation, no create) and remove the client when found; then stage
an UNSUBACK with the original packet id. -/
def unsubscribe_handler (e : IoEvent) (sol : Sol) : Sol × HandlerOut :=
  let c0 := sol.clients e.fd
  let sol1 := e.data.unsubscribe.tuples.foldl
    (fun s tp =>
      match sol_topic_get s tp.topic with
      | some _ => topic_del_subscriber s tp.topic c0.client_id
      | none => s)
    sol
  let c := sol1.clients e.fd
  let c := { c with wbuf := c.wbuf ++ mqtt_pack_mono UNSUBACK e.data.unsubscribe.pkt_id,
                    towrite := c.towrite + MQTT_ACK_LEN }
  (setClient sol1 e.fd c, HandlerOut.reply)

/-! ## PUBLISH, inbound (lines 463-542) -/

/-- The topic normalisation of lines 481-492.  `strncpy` copies exactly
`topiclen` bytes, so the byte the code then inspects at index
`topiclen` is uninitialised stack memory; it is modelled as 0 (not a
`/`), so the slash is appended as in the common case. -/
def normPubTopic (tp : List Nat) (n : Nat) : List Nat :=
  tp.take n ++ [slashC]

/-- Lines 463-509 of `publish_handler`: everything up to and including
the fan-out call — counter bump, topic get-or-create, pool allocation
of the outbound copy, retained-message store, `publish_message`. -/
def publish_front (enc : MqttPacket → List Nat) (alloc : Client → Nat)
    (e : IoEvent) (sol : Sol) : Sol :=
  let p := e.data.publish
  let sol1 := { sol with messages_recv := sol.messages_recv + 1 }
  let topic := normPubTopic p.topic p.topiclen
  let gc := sol_topic_get_or_create sol1 topic
  let sol2 := gc.1
  let pktRef := sol2.pool_next                      -- memorypool_alloc
  let sol3 := { sol2 with pool_next := sol2.pool_next + 1 }
  let pkt : MqttPacket :=
    { emptyPacket with header := e.data.header, publish := e.data.publish }
  let sol4 :=
    if e.data.header.retain = 1 then
      setTopicF sol3 topic fun t => { t with retained_msg := some (enc e.data) }
    else sol3
  let t := (sol_topic_get sol4 topic).getD gc.2
  publish_message enc alloc pkt pktRef t sol4

/-- Lines 511-542 of `publish_handler`: the reply to the publisher,
driven by the QoS captured at entry.  `publen` is `mqtt_size(&e->data)`
computed at line 503. -/
def publish_ack (e : IoEvent) (publen : Nat) (sol : Sol) : Sol × HandlerOut :=
  let c := sol.clients e.fd
  let qos := e.data.header.qos
  let orig_mid := e.data.publish.pkt_id
  if qos = AT_MOST_ONCE then (sol, HandlerOut.noreply)
  else
    let step2 :=
      if qos = EXACTLY_ONCE then
        -- mqtt_ack(&ack, orig_mid) on a stack packet whose header stays
        -- uninitialised; then install it as the pending inbound ack
        let ack : MqttPacket := { emptyPacket with ack := ⟨orig_mid⟩ }
        ({ c with in_i_acks := Function.update c.in_i_acks orig_mid ⟨true, ack, 0, publen, 0⟩,
                  has_inflight := true }, PUBREC)
      else (c, PUBACK)
    let c1 := step2.1
    let ptype := step2.2
    let c2 := { c1 with wbuf := c1.wbuf ++ mqtt_pack_mono ptype orig_mid,
                        towrite := c1.towrite + MQTT_ACK_LEN }
    (setClient sol e.fd c2, HandlerOut.reply)

/-- `publish_handler` (lines 463-542) as the composition of its two
halves. -/
def publish_handler (enc : MqttPacket → List Nat) (alloc : Client → Nat)
    (e : IoEvent) (sol : Sol) : Sol × HandlerOut :=
  publish_ack e (enc e.data).length (publish_front enc alloc e sol)

/-! ## The four ack handlers (lines 544-592) -/

/-- `puback_handler` (lines 544-553): release `i_msgs[id]` (freeing its
pooled packet) and `i_acks[id]`, and clear `has_inflight` — all
unconditionally, exactly as the source does. -/
def puback_handler (e : IoEvent) (sol : Sol) : Sol × HandlerOut :=
  let c := sol.clients e.fd
  let k := e.data.ack.pkt_id
  let c1 := { c with i_msgs := Function.update c.i_msgs k { c.i_msgs k with in_use := false } }
  let sol1 := { sol with pool_freed := (c1.i_msgs k).packetRef :: sol.pool_freed }
  let c2 := { c1 with i_acks := Function.update c1.i_acks k { c1.i_acks k with in_use := false } }
  let c3 := { c2 with has_inflight := false }
  (setClient sol1 e.fd c3, HandlerOut.noreply)

/-- `pubrec_handler` (lines 555-569): stage a PUBREL and advance the
stored outbound ack, when one is in use, to type PUBREL. -/
def pubrec_handler (e : IoEvent) (sol : Sol) : Sol × HandlerOut :=
  let c := sol.clients e.fd
  let k := e.data.ack.pkt_id
  let c1 := { c with wbuf := c.wbuf ++ mqtt_pack_mono PUBREL k,
                     towrite := c.towrite + MQTT_ACK_LEN }
  let c2 :=
    if (c1.i_acks k).in_use then
      let en := c1.i_acks k
      let en1 := { en with
        packet := { en.packet with header := { en.packet.header with type := PUBREL } },
        sent_timestamp := 0 }
      { c1 with i_acks := Function.update c1.i_acks k en1 }
    else c1
  (setClient sol e.fd c2, HandlerOut.reply)

/-- `pubrel_handler` (lines 571-581): stage a PUBCOMP, release
`in_i_acks[id]` and clear `has_inflight` unconditionally. -/
def pubrel_handler (e : IoEvent) (sol : Sol) : Sol × HandlerOut :=
  let c := sol.clients e.fd
  let k := e.data.ack.pkt_id
  let c1 := { c with wbuf := c.wbuf ++ mqtt_pack_mono PUBCOMP k,
                     towrite := c.towrite + MQTT_ACK_LEN }
  let c2 := { c1 with in_i_acks := Function.update c1.in_i_acks k
                        { c1.in_i_acks k with in_use := false } }
  let c3 := { c2 with has_inflight := false }
  (setClient sol e.fd c3, HandlerOut.reply)

/-- `pubcomp_handler` (lines 583-592): release `i_acks[id]` and
`i_msgs[id]` (freeing the pooled packet) and clear `has_inflight`,
unconditionally. -/
def pubcomp_handler (e : IoEvent) (sol : Sol) : Sol × HandlerOut :=
  let c := sol.clients e.fd
  let k := e.data.ack.pkt_id
  let c1 := { c with i_acks := Function.update c.i_acks k { c.i_acks k with in_use := false } }
  let c2 := { c1 with i_msgs := Function.update c1.i_msgs k { c1.i_msgs k with in_use := false } }
  let sol1 := { sol with pool_freed := (c2.i_msgs k).packetRef :: sol.pool_freed }
  let c3 := { c2 with has_inflight := false }
  (setClient sol1 e.fd c3, HandlerOut.noreply)

/-! ## PINGREQ (lines 594-601) -/

/-- `pingreq_handler`: rewrite the event header byte to PINGRESP, pack
it and advance `towrite` by the 2-byte header length. -/
def pingreq_handler (enc : MqttPacket → List Nat) (e : IoEvent) (sol : Sol) :
    Sol × HandlerOut :=
  let c := sol.clients e.fd
  let resp := { e.data with header := header_of_byte PINGRESP_B }
  let c1 := { c with wbuf := c.wbuf ++ enc resp, towrite := c.towrite + MQTT_HEADER_LEN }
  (setClient sol e.fd c1, HandlerOut.reply)

/-! ## Dispatch (lines 56-72 and 603-606) -/

/-- The `handlers[15]` table (lines 56-72): one slot per control type,
`none` for the NULL entries at types 0, 2, 9, 11 and 13. -/
def handlers (enc : MqttPacket → List Nat) (alloc : Client → Nat)
    (cp : List Nat → List Nat → Bool) (anon : Bool) (genid : List Nat) :
    List (Option (IoEvent → Sol → Sol × HandlerOut)) :=
  [none,
   some (connect_handler enc cp anon genid),
   none,
   some (publish_handler enc alloc),
   some puback_handler,
   some pubrec_handler,
   some pubrel_handler,
   some pubcomp_handler,
   some (subscribe_handler enc),
   none,
   some unsubscribe_handler,
   none,
   some (pingreq_handler enc),
   none,
   some disconnect_handler]

/-- `handle_command` (lines 603-606): `return handlers[type](event)`.
Calling through a NULL table entry — or indexing past the 15-entry
table — is undefined behaviour (a crash) in C; it is modelled as
`none`: no outcome is produced. -/
def handle_command (enc : MqttPacket → List Nat) (alloc : Client → Nat)
    (cp : List Nat → List Nat → Bool) (anon : Bool) (genid : List Nat)
    (ty : Nat) (e : IoEvent) (sol : Sol) : Option (Sol × HandlerOut) :=
  match (handlers enc alloc cp anon genid).getD ty none with
  | some h => some (h e sol)
  | none => none

/-! ## Concrete fixtures used to evaluate the embedding -/

/-- A concrete stand-in for the external codec: encodes just the header
byte. -/
def enc0 : MqttPacket → List Nat := fun p => [byte_of_header p.header]

/-- A concrete stand-in for `next_free_mid`: always hands out id 1. -/
def alloc0 : Client → Nat := fun _ => 1

/-- A concrete stand-in for `check_passwd`: accepts everything. -/
def cp0 : List Nat → List Nat → Bool := fun _ _ => true

/-- An ack event (PUBACK/PUBREL/PUBCOMP/...) for packet id `k` from the
client in fd slot 0. -/
def ackEvent (k : Nat) : IoEvent := ⟨0, { emptyPacket with ack := ⟨k⟩ }⟩

/-- A client with packet id 2 still inflight (outbound message in use)
and the summary flag set. -/
def cexClientC1 : Client :=
  { emptyClient with
    online := true
    has_inflight := true
    i_msgs := Function.update (fun _ => emptyInflight) 2 { emptyInflight with in_use := true } }

def cexSolC1 : Sol := { emptySol with clients := fun _ => cexClientC1 }

/-- A client whose slot 1 is already released (`in_use=false`) but
still references pooled packet 7, which the pool has already freed
once. -/
def cexClientC2 : Client :=
  { emptyClient with
    online := true
    i_msgs := Function.update (fun _ => emptyInflight) 1 { emptyInflight with packetRef := 7 } }

def cexSolC2 : Sol := { emptySol with clients := fun _ => cexClientC2, pool_freed := [7] }

/-- A CONNECT packet with `client_id = "A"` and `clean_session = 1`. -/
def cexConnectPkt : MqttPacket :=
  { emptyPacket with
    connect := ⟨⟨true, false, 0, false, false, false⟩, ⟨0, [65], [], [], [], []⟩⟩ }

/-- Broker state in which the connection's slot already holds a live
session named `"A"`. -/
def cexSolC3 : Sol :=
  { emptySol with clients := fun _ => { emptyClient with online := true, client_id := [65] } }

/-- A subscriber of topic `"a/"` with granted QoS 2, client slot 0. -/
def cexSubC5 : TopicSub := ⟨[66], 0, 2⟩

def cexTopicC5 : Topic := ⟨[97, 47], [cexSubC5], none⟩

def cexSolC5 : Sol := { emptySol with clients := fun _ => { emptyClient with online := true } }

/-- A QoS-1 PUBLISH to `"a/"`. -/
def cexPktC5 : MqttPacket :=
  { emptyPacket with
    header := { emptyHeader with type := PUBLISH, qos := 1 },
    publish := ⟨9, 2, [97, 47], 1, [104]⟩ }

def e0 : IoEvent := ⟨0, emptyPacket⟩

/-! ## Claim theorems -/

/-- Claim C1: the claim requires `has_inflight` to remain true whenever
some other packet id is still in use after a PUBACK, PUBREL or PUBCOMP
completes.  The code clears the flag unconditionally: from a state in
which id 2 is still inflight, handling an ack for id 1 leaves
`has_inflight = false` while `i_msgs[2].in_use` is still true, for each
of the three handlers.  This evaluates the embedded handlers at that
failing input. -/
theorem has_inflight_not_a_summary_flag :
    ((((puback_handler (ackEvent 1) cexSolC1).1.clients 0).has_inflight = false) ∧
     ((((puback_handler (ackEvent 1) cexSolC1).1.clients 0).i_msgs 2).in_use = true)) ∧
    ((((pubrel_handler (ackEvent 1) cexSolC1).1.clients 0).has_inflight = false) ∧
     ((((pubrel_handler (ackEvent 1) cexSolC1).1.clients 0).i_msgs 2).in_use = true)) ∧
    ((((pubcomp_handler (ackEvent 1) cexSolC1).1.clients 0).has_inflight = false) ∧
     ((((pubcomp_handler (ackEvent 1) cexSolC1).1.clients 0).i_msgs 2).in_use = true)) := by
  decide

/-- Claim C2: a second PUBACK for an id whose slots are already free
must leave the state unchanged and must not release the pooled packet
again.  The embedded `puback_handler`, run on a state where slot 1 is
not in use and its pooled packet 7 is already in the free log, calls
`memorypool_free` on packet 7 a second time (the log becomes `[7, 7]`),
so the state changes and the packet is released twice. -/
theorem duplicate_puback_frees_again :
    (cexClientC2.i_msgs 1).in_use = false ∧
    (cexClientC2.i_acks 1).in_use = false ∧
    (puback_handler (ackEvent 1) cexSolC2).1.pool_freed = [7, 7] := by
  decide

/-- Claim C3: a CONNECT naming a client id whose session is online must
be answered with the client-disconnect outcome.  At the failing input —
the connection's slot holds a live session with the identical id `"A"`
— the embedded `connect_handler` returns `REPLY` (it proceeds to the
CONNACK), because `strncmp` returns 0 for equal ids and the handler
compares the result with 1. -/
theorem double_connect_not_disconnected :
    (cexSolC3.clients 0).online = true ∧
    (cexSolC3.clients 0).client_id = cexConnectPkt.connect.payload.client_id ∧
    (connect_handler enc0 cp0 true [] ⟨0, cexConnectPkt⟩ cexSolC3).2 = HandlerOut.reply ∧
    HandlerOut.reply ≠ HandlerOut.clientdc := by
  decide

/-- Claim C9: packets whose control type has no handler (0, 2, 9, 11,
13, or out of table range such as 15) should yield a protocol-violation
outcome.  The embedded `handle_command` produces no outcome at all for
them: the source calls straight through the NULL table entry (undefined
behaviour), modelled as `none`. -/
theorem null_dispatch_has_no_outcome :
    handle_command enc0 alloc0 cp0 true [] 0 e0 emptySol = none ∧
    handle_command enc0 alloc0 cp0 true [] 2 e0 emptySol = none ∧
    handle_command enc0 alloc0 cp0 true [] 9 e0 emptySol = none ∧
    handle_command enc0 alloc0 cp0 true [] 11 e0 emptySol = none ∧
    handle_command enc0 alloc0 cp0 true [] 13 e0 emptySol = none ∧
    handle_command enc0 alloc0 cp0 true [] 15 e0 emptySol = none := by
  exact ⟨rfl, rfl, rfl, rfl, rfl, rfl⟩

/-- Claim C5 counterexample: a QoS-1 PUBLISH fanned out to an online
subscriber with granted QoS 2 has effective QoS `min 1 2 = 1`, yet the
stub ack installed in `i_acks[1]` carries the PUBREC code, not PUBACK:
the source picks the type from the subscriber's granted QoS alone. -/
theorem stub_ack_type_counterexample :
    Nat.min cexPktC5.header.qos cexSubC5.qos = 1 ∧
    (((publish_message enc0 alloc0 cexPktC5 0 cexTopicC5 cexSolC5).clients 0).i_acks 1).packet.header
        = header_of_byte PUBREC ∧
    (((publish_message enc0 alloc0 cexPktC5 0 cexTopicC5 cexSolC5).clients 0).i_acks 1).in_use
        = true ∧
    header_of_byte PUBREC ≠ header_of_byte PUBACK := by
  decide

/-! ## The effective-QoS law (claim C4) -/

/-- The QoS written by line 97 is the minimum of the original QoS and
the subscriber's QoS. -/
lemma fan_adjust_qos (enc : MqttPacket → List Nat) (q s : Nat) (pkt : MqttPacket) :
    ((fan_adjust enc q s pkt).1).header.qos = Nat.min q s := by
  simp only [fan_adjust, Nat.min_def]
  split
  · split <;> omega
  · split <;> omega

/-- The header QoS of the packet the online arm encodes is the
effective QoS: the id installation of lines 123-125 leaves the header
alone. -/
lemma fan_pkt_out_qos (enc : MqttPacket → List Nat) (alloc : Client → Nat)
    (q : Nat) (sub : TopicSub) (pkt : MqttPacket) (sc : Client) :
    (fan_pkt_out enc alloc q sub pkt sc).header.qos = Nat.min q sub.qos := by
  have hq := fan_adjust_qos enc q sub.qos pkt
  unfold fan_pkt_out
  dsimp only
  split
  · simpa using hq
  · simpa using hq

/-- Any delivery performed by one fan-out step carries the loop
subscriber's QoS and a header downgraded to the effective QoS. -/
lemma publish_step_delivery (enc : MqttPacket → List Nat) (alloc : Client → Nat)
    (q ref : Nat) (sub : TopicSub) (pkt : MqttPacket) (sol : Sol) (d : Delivery)
    (h : (publish_step enc alloc q ref sub pkt sol).2.2 = some d) :
    d.sub_qos = sub.qos ∧ d.packet.header.qos = Nat.min q sub.qos := by
  cases hon : (sol.clients sub.client_fd).online with
  | false =>
      exfalso
      cases hcs : (sol.clients sub.client_fd).clean_session with
      | false => simp [publish_step, hon, hcs] at h
      | true => simp [publish_step, hon, hcs] at h
  | true =>
      simp only [publish_step, hon, Bool.true_eq_false, if_false,
        Option.some.injEq] at h
      subst h
      exact ⟨rfl, fan_pkt_out_qos enc alloc q sub pkt (sol.clients sub.client_fd)⟩

/-- Claim C4: for every PUBLISH with QoS `q` and every subscriber the
fan-out delivers to, the QoS written in the delivered packet's header
equals `min q sub.qos` — by induction over the subscriber iteration of
`publish_message`. -/
theorem effective_qos_law (enc : MqttPacket → List Nat) (alloc : Client → Nat)
    (q ref : Nat) (subs : List TopicSub) :
    ∀ (pkt : MqttPacket) (sol : Sol) (d : Delivery),
      d ∈ (publish_fan enc alloc q ref subs pkt sol).2.2 →
      d.packet.header.qos = Nat.min q d.sub_qos := by
  induction subs with
  | nil =>
      intro pkt sol d hd
      simp [publish_fan] at hd
  | cons sub rest ih =>
      intro pkt sol d hd
      rw [publish_fan] at hd
      cases h1 : (publish_step enc alloc q ref sub pkt sol).2.2 with
      | none =>
          rw [h1] at hd
          exact ih _ _ d hd
      | some d1 =>
          rw [h1] at hd
          rcases List.mem_cons.mp hd with h | h
          · obtain ⟨hs, hq⟩ := publish_step_delivery enc alloc q ref sub pkt sol d1 h1
            rw [h, hq, hs]
          · exact ih _ _ d h

/-- A subscriber with granted QoS 0, client in slot 0. -/
def cexSubC4 : TopicSub := ⟨[66], 0, 0⟩

def cexSolC4 : Sol := { emptySol with clients := fun _ => { emptyClient with online := true } }

/-- A QoS-1 PUBLISH to `"a/"`. -/
def cexPktC4 : MqttPacket :=
  { emptyPacket with
    header := { emptyHeader with type := PUBLISH, qos := 1 },
    publish := ⟨9, 2, [97, 47], 1, [104]⟩ }

/-- The delivery the fan-out performs at that concrete input. -/
def cexDelC4 : Delivery :=
  (publish_fan enc0 alloc0 1 0 [cexSubC4] cexPktC4 cexSolC4).2.2.getD 0 ⟨0, 0, emptyPacket⟩

/-- Witness for claim C4 at a concrete input: the QoS-1 publish fanned
out to a QoS-0 subscriber is delivered with header QoS `min 1 0`. -/
theorem effective_qos_law_witness :
    cexDelC4 ∈ (publish_fan enc0 alloc0 1 0 [cexSubC4] cexPktC4 cexSolC4).2.2 ∧
    cexDelC4.packet.header.qos = Nat.min 1 cexDelC4.sub_qos :=
  ⟨by decide,
   effective_qos_law enc0 alloc0 1 0 [cexSubC4] cexPktC4 cexSolC4 cexDelC4 (by decide)⟩

/-- Claim C5 (amended): in the fan-out, for an online subscriber with
effective QoS above 0 whose `i_acks[mid]` slot is free, the installed
stub ack carries the PUBACK code exactly when the subscriber's granted
QoS is 1 (and PUBREC otherwise) — the source derives the type from
`sub->qos`, not from the effective QoS. -/
theorem stub_ack_type_by_granted_qos (enc : MqttPacket → List Nat)
    (alloc : Client → Nat) (q ref : Nat) (sub : TopicSub) (pkt : MqttPacket) (sol : Sol)
    (hon : (sol.clients sub.client_fd).online = true)
    (heff : 0 < Nat.min q sub.qos)
    (hfree : ((sol.clients sub.client_fd).i_acks (alloc (sol.clients sub.client_fd))).in_use
        = false) :
    (((publish_step enc alloc q ref sub pkt sol).2.1.clients sub.client_fd).i_acks
        (alloc (sol.clients sub.client_fd))).in_use = true ∧
    (((publish_step enc alloc q ref sub pkt sol).2.1.clients sub.client_fd).i_acks
        (alloc (sol.clients sub.client_fd))).packet.header
      = header_of_byte (if sub.qos = AT_LEAST_ONCE then PUBACK else PUBREC) := by
  have hqos1 : AT_MOST_ONCE < ((fan_adjust enc q sub.qos pkt).1).header.qos := by
    rw [fan_adjust_qos]
    simpa [AT_MOST_ONCE] using heff
  simp only [publish_step, hon, Bool.true_eq_false, if_false, setClient,
    Function.update_same]
  unfold fan_client_out
  dsimp only
  rw [if_pos hqos1]
  split <;> simp [hfree, Function.update_same]

/-- Witness for the amended claim C5: a QoS-2 publish to an online
QoS-1 subscriber with slot 1 free installs a PUBACK-coded stub. -/
theorem stub_ack_type_by_granted_qos_witness :
    (cexSolC4.clients 0).online = true ∧
    0 < Nat.min 2 (1 : Nat) ∧
    ((cexSolC4.clients 0).i_acks 1).in_use = false ∧
    ((((publish_step enc0 alloc0 2 0 ⟨[66], 0, 1⟩ cexPktC4 cexSolC4).2.1.clients 0).i_acks 1).in_use = true ∧
     (((publish_step enc0 alloc0 2 0 ⟨[66], 0, 1⟩ cexPktC4 cexSolC4).2.1.clients 0).i_acks 1).packet.header
       = header_of_byte (if (1 : Nat) = AT_LEAST_ONCE then PUBACK else PUBREC)) :=
  ⟨by decide, by decide, by decide,
   stub_ack_type_by_granted_qos enc0 alloc0 2 0 ⟨[66], 0, 1⟩ cexPktC4 cexSolC4
     (by decide) (by decide) (by decide)⟩

/-! ## Offline subscribers in the fan-out (claim C8) -/

/-- Claim C8: for an offline subscriber, the fan-out queues the
(downgraded) PUBLISH into `outgoing_msgs` when `clean_session=false` —
writing nothing to `wbuf` — and drops it entirely when
`clean_session=true`; in both cases the iteration continues with the
remaining subscribers. -/
theorem offline_fanout_queues_or_drops (enc : MqttPacket → List Nat)
    (alloc : Client → Nat) (q ref : Nat) (sub : TopicSub) (pkt : MqttPacket) (sol : Sol)
    (hoff : (sol.clients sub.client_fd).online = false) :
    ((sol.clients sub.client_fd).clean_session = false →
      (publish_step enc alloc q ref sub pkt sol).2.1
        = setClient sol sub.client_fd
            { sol.clients sub.client_fd with
              outgoing_msgs := list_push (sol.clients sub.client_fd).outgoing_msgs
                                 (fan_adjust enc q sub.qos pkt).1 } ∧
      (((publish_step enc alloc q ref sub pkt sol).2.1).clients sub.client_fd).wbuf
        = (sol.clients sub.client_fd).wbuf) ∧
    ((sol.clients sub.client_fd).clean_session = true →
      (publish_step enc alloc q ref sub pkt sol).2.1 = sol) ∧
    (publish_step enc alloc q ref sub pkt sol).2.2 = none ∧
    (∀ rest : List TopicSub,
      publish_fan enc alloc q ref (sub :: rest) pkt sol
        = publish_fan enc alloc q ref rest (fan_adjust enc q sub.qos pkt).1
            ((publish_step enc alloc q ref sub pkt sol).2.1)) := by
  have hnone : (publish_step enc alloc q ref sub pkt sol).2.2 = none := by
    cases hcs : (sol.clients sub.client_fd).clean_session with
    | false => simp [publish_step, hoff, hcs]
    | true => simp [publish_step, hoff, hcs]
  have hpkt : (publish_step enc alloc q ref sub pkt sol).1
      = (fan_adjust enc q sub.qos pkt).1 := by
    cases hcs : (sol.clients sub.client_fd).clean_session with
    | false => simp [publish_step, hoff, hcs]
    | true => simp [publish_step, hoff, hcs]
  refine ⟨?_, ?_, hnone, ?_⟩
  · intro hcs
    constructor
    · simp [publish_step, hoff, hcs]
    · simp [publish_step, hoff, hcs, setClient, Function.update_same]
  · intro hcs
    simp [publish_step, hoff, hcs]
  · intro rest
    conv_lhs => rw [publish_fan]
    rw [hnone, hpkt]

def cexSubC8 : TopicSub := ⟨[66], 0, 0⟩

/-- An offline, non-clean session in every slot. -/
def cexSolC8 : Sol := emptySol

/-- Witness for claim C8 at a concrete input: the offline, persistent
subscriber gets the PUBLISH queued, its `wbuf` untouched, no delivery
happens, and the fan-out proceeds with the rest of the list. -/
theorem offline_fanout_queues_or_drops_witness :
    (cexSolC8.clients 0).online = false ∧
    (cexSolC8.clients 0).clean_session = false ∧
    (((publish_step enc0 alloc0 1 0 cexSubC8 cexPktC4 cexSolC8).2.1).clients 0).wbuf
      = (cexSolC8.clients 0).wbuf ∧
    (publish_step enc0 alloc0 1 0 cexSubC8 cexPktC4 cexSolC8).2.2 = none ∧
    publish_fan enc0 alloc0 1 0 [cexSubC8] cexPktC4 cexSolC8
      = publish_fan enc0 alloc0 1 0 [] (fan_adjust enc0 1 cexSubC8.qos cexPktC4).1
          ((publish_step enc0 alloc0 1 0 cexSubC8 cexPktC4 cexSolC8).2.1) :=
  ⟨by decide, by decide,
   ((offline_fanout_queues_or_drops enc0 alloc0 1 0 cexSubC8 cexPktC4 cexSolC8
       (by decide)).1 (by decide)).2,
   (offline_fanout_queues_or_drops enc0 alloc0 1 0 cexSubC8 cexPktC4 cexSolC8
       (by decide)).2.2.1,
   (offline_fanout_queues_or_drops enc0 alloc0 1 0 cexSubC8 cexPktC4 cexSolC8
       (by decide)).2.2.2 []⟩

/-! ## The PUBLISH reply (claim C6) -/

/-- Claim C6: `publish_handler` is the fan-out front followed by the
ack phase, and the ack phase depends only on the publish QoS: QoS 0
stages nothing and yields NOREPLY; QoS 1 stages a PUBACK carrying the
publisher's packet id and yields REPLY; QoS 2 additionally installs an
`in_i_acks` entry at the publisher's packet id, stages a PUBREC with
that id, and yields REPLY. -/
theorem publish_reply_by_qos (enc : MqttPacket → List Nat) (alloc : Client → Nat)
    (e : IoEvent) (sol : Sol) :
    publish_handler enc alloc e sol
      = publish_ack e (enc e.data).length (publish_front enc alloc e sol) ∧
    ∀ sol1 : Sol,
      (e.data.header.qos = AT_MOST_ONCE →
        publish_ack e (enc e.data).length sol1 = (sol1, HandlerOut.noreply)) ∧
      (e.data.header.qos = AT_LEAST_ONCE →
        publish_ack e (enc e.data).length sol1
          = (setClient sol1 e.fd
               { sol1.clients e.fd with
                 wbuf := (sol1.clients e.fd).wbuf
                           ++ mqtt_pack_mono PUBACK e.data.publish.pkt_id,
                 towrite := (sol1.clients e.fd).towrite + MQTT_ACK_LEN },
             HandlerOut.reply)) ∧
      (e.data.header.qos = EXACTLY_ONCE →
        publish_ack e (enc e.data).length sol1
          = (setClient sol1 e.fd
               { sol1.clients e.fd with
                 in_i_acks := Function.update (sol1.clients e.fd).in_i_acks
                                e.data.publish.pkt_id
                                ⟨true, { emptyPacket with ack := ⟨e.data.publish.pkt_id⟩ },
                                 0, (enc e.data).length, 0⟩,
                 has_inflight := true,
                 wbuf := (sol1.clients e.fd).wbuf
                           ++ mqtt_pack_mono PUBREC e.data.publish.pkt_id,
                 towrite := (sol1.clients e.fd).towrite + MQTT_ACK_LEN },
             HandlerOut.reply)) := by
  refine ⟨rfl, fun sol1 => ⟨?_, ?_, ?_⟩⟩
  · intro h0
    simp [publish_ack, h0]
  · intro h1
    simp [publish_ack, h1, AT_LEAST_ONCE, AT_MOST_ONCE, EXACTLY_ONCE]
  · intro h2
    simp [publish_ack, h2, AT_MOST_ONCE, EXACTLY_ONCE]

/-- A QoS-1 PUBLISH event with packet id 42. -/
def cexEventC6 : IoEvent :=
  ⟨0, { emptyPacket with
        header := { emptyHeader with type := PUBLISH, qos := 1 },
        publish := ⟨42, 2, [97, 47], 1, [104]⟩ }⟩

/-- Witness for claim C6 at a concrete input: at QoS 1 the ack phase
stages exactly a PUBACK carrying packet id 42 and replies REPLY. -/
theorem publish_reply_by_qos_witness :
    cexEventC6.data.header.qos = AT_LEAST_ONCE ∧
    publish_ack cexEventC6 (enc0 cexEventC6.data).length emptySol
      = (setClient emptySol 0
           { emptySol.clients 0 with
             wbuf := (emptySol.clients 0).wbuf ++ mqtt_pack_mono PUBACK 42,
             towrite := (emptySol.clients 0).towrite + MQTT_ACK_LEN },
         HandlerOut.reply) :=
  ⟨rfl, ((publish_reply_by_qos enc0 alloc0 cexEventC6 emptySol).2 emptySol).2.1 rfl⟩

/-! ## Invariance lemmas about the subscribe loop's store operations -/

lemma clients_setTopicF (sol : Sol) (nm : List Nat) (f : Topic → Topic) :
    (setTopicF sol nm f).clients = sol.clients := rfl

lemma clients_topic_add (sol : Sol) (nm cid : List Nat) (fd qos : Nat) :
    (topic_add_subscriber sol nm cid fd qos).clients = sol.clients := rfl

lemma clients_goc (sol : Sol) (nm : List Nat) :
    ((sol_topic_get_or_create sol nm).1).clients = sol.clients := by
  unfold sol_topic_get_or_create
  cases sol_topic_get sol nm <;> rfl

lemma clients_trie_wbuf (sol : Sol) (pre : List Nat) (fd qos : Nat) :
    ((trie_prefix_map sol pre fd qos).clients fd).wbuf = (sol.clients fd).wbuf := by
  unfold trie_prefix_map
  dsimp only
  simp only [setClient, Function.update_same]
  split <;> rfl

lemma clients_trie_client_id (sol : Sol) (pre : List Nat) (fd qos : Nat) :
    ((trie_prefix_map sol pre fd qos).clients fd).client_id
      = (sol.clients fd).client_id := by
  unfold trie_prefix_map
  dsimp only
  simp only [setClient, Function.update_same]
  split <;> rfl

lemma sol_topic_get_setClient (sol : Sol) (fd : Nat) (c : Client) (nm : List Nat) :
    sol_topic_get (setClient sol fd c) nm = sol_topic_get sol nm := rfl

/-- After `get_or_create`, looking the name up finds the returned
topic. -/
lemma sol_topic_get_goc (sol : Sol) (nm : List Nat) :
    sol_topic_get (sol_topic_get_or_create sol nm).1 nm
      = some (sol_topic_get_or_create sol nm).2 := by
  unfold sol_topic_get_or_create
  cases h : sol_topic_get sol nm with
  | some t => simp [h]
  | none =>
      unfold sol_topic_get at h ⊢
      simp [List.find?_append, h]

/-- Mapping a name- and retained-preserving function over the topic
store does not change what the retained lookup sees. -/
lemma retained_get_map (topics : List Topic) (g : Topic → Topic)
    (hg : ∀ t, (g t).name = t.name) (hr : ∀ t, (g t).retained_msg = t.retained_msg)
    (nm : List Nat) :
    ((topics.map g).find? (fun t => t.name == nm)).bind Topic.retained_msg
      = (topics.find? (fun t => t.name == nm)).bind Topic.retained_msg := by
  rw [List.find?_map]
  have hp : ((fun t : Topic => t.name == nm) ∘ g) = fun t : Topic => t.name == nm := by
    funext t
    simp [Function.comp, hg]
  rw [hp]
  cases topics.find? (fun t : Topic => t.name == nm) <;> simp [hr]

lemma retained_get_setTopicF (sol : Sol) (nm2 : List Nat) (f : Topic → Topic)
    (hf : ∀ t, (f t).name = t.name) (hfr : ∀ t, (f t).retained_msg = t.retained_msg)
    (nm : List Nat) :
    (sol_topic_get (setTopicF sol nm2 f) nm).bind Topic.retained_msg
      = (sol_topic_get sol nm).bind Topic.retained_msg := by
  unfold setTopicF sol_topic_get
  refine retained_get_map sol.topics _ ?_ ?_ nm
  · intro t
    split
    · exact hf t
    · rfl
  · intro t
    split
    · exact hfr t
    · rfl

lemma retained_get_trie (sol : Sol) (pre : List Nat) (fd qos : Nat) (nm : List Nat) :
    (sol_topic_get (trie_prefix_map sol pre fd qos) nm).bind Topic.retained_msg
      = (sol_topic_get sol nm).bind Topic.retained_msg := by
  unfold trie_prefix_map
  dsimp only
  rw [sol_topic_get_setClient]
  unfold sol_topic_get
  refine retained_get_map sol.topics _ ?_ ?_ nm
  · intro t
    split <;> rfl
  · intro t
    split <;> rfl

lemma retained_get_topic_add (sol : Sol) (nm2 cid : List Nat) (fd qos : Nat)
    (nm : List Nat) :
    (sol_topic_get (topic_add_subscriber sol nm2 cid fd qos) nm).bind Topic.retained_msg
      = (sol_topic_get sol nm).bind Topic.retained_msg := by
  unfold topic_add_subscriber
  exact retained_get_setTopicF sol nm2
    (fun t => { t with subscribers := subs_put t.subscribers ⟨cid, fd, qos⟩ })
    (fun t => rfl) (fun t => rfl) nm

/-! ## Staging order in SUBSCRIBE (claim C7) -/

lemma stage_retained_wbuf (o : Option (List Nat)) (c : Client) (base : List Nat)
    (h : c.wbuf = base) : ∃ u, (stage_retained o c).wbuf = base ++ u := by
  cases o with
  | none => exact ⟨[], by simp [stage_retained, h]⟩
  | some r => exact ⟨r, by simp [stage_retained, h]⟩

/-- The client's staged bytes are untouched by the subscriber
installation of one SUBSCRIBE tuple. -/
lemma install_clients_wbuf (sol : Sol) (nm cid : List Nat) (fd qos : Nat) (w : Bool) :
    ((topic_add_subscriber
        (if w = true then trie_prefix_map (sol_topic_get_or_create sol nm).1 nm fd qos
         else (sol_topic_get_or_create sol nm).1) nm cid fd qos).clients fd).wbuf
      = (sol.clients fd).wbuf := by
  rw [clients_topic_add]
  cases w with
  | false => simp only [Bool.false_eq_true, if_false, clients_goc]
  | true => rw [if_pos rfl, clients_trie_wbuf, clients_goc]

/-- The retained bytes the loop body reads for its tuple's topic are
exactly those of the topic `get_or_create` returned: the subscriber
installs in between do not touch `retained_msg`. -/
lemma install_retained_lookup (sol : Sol) (nm cid : List Nat) (fd qos : Nat) (w : Bool) :
    (sol_topic_get
        (topic_add_subscriber
          (if w = true then trie_prefix_map (sol_topic_get_or_create sol nm).1 nm fd qos
           else (sol_topic_get_or_create sol nm).1) nm cid fd qos) nm).bind
        Topic.retained_msg
      = ((sol_topic_get_or_create sol nm).2).retained_msg := by
  rw [retained_get_topic_add]
  cases w with
  | false =>
      simp only [Bool.false_eq_true, if_false]
      rw [sol_topic_get_goc]
      simp
  | true =>
      rw [if_pos rfl, retained_get_trie, sol_topic_get_goc]
      simp

/-- One loop iteration appends at most its topic's retained bytes to
`wbuf`. -/
lemma subscribe_step_wbuf (fd : Nat) (a : Sol × Bool × List Nat) (tp : SubTuple) :
    ∃ u, (((subscribe_step fd a tp).1).clients fd).wbuf = ((a.1).clients fd).wbuf ++ u := by
  unfold subscribe_step
  dsimp only
  simp only [setClient, Function.update_same]
  exact stage_retained_wbuf _ _ _
    (install_clients_wbuf a.1 (norm_topic_sub tp).1 _ fd tp.qos _)

/-- When the tuple's (possibly created) topic holds retained bytes `r`,
the iteration appends exactly `r`. -/
lemma subscribe_step_wbuf_retained (fd : Nat) (a : Sol × Bool × List Nat)
    (tp : SubTuple) (r : List Nat)
    (hr : ((sol_topic_get_or_create a.1 (norm_topic_sub tp).1).2).retained_msg = some r) :
    (((subscribe_step fd a tp).1).clients fd).wbuf = ((a.1).clients fd).wbuf ++ r := by
  unfold subscribe_step
  dsimp only
  simp only [setClient, Function.update_same]
  rw [install_retained_lookup, hr]
  simp only [stage_retained]
  rw [install_clients_wbuf]

/-- Across any run of loop iterations, `wbuf` only grows by appends. -/
lemma subscribe_foldl_wbuf (fd : Nat) :
    ∀ (ts : List SubTuple) (a : Sol × Bool × List Nat),
      ∃ u, (((ts.foldl (subscribe_step fd) a).1).clients fd).wbuf
        = ((a.1).clients fd).wbuf ++ u := by
  intro ts
  induction ts with
  | nil => intro a; exact ⟨[], by simp⟩
  | cons t ts ih =>
      intro a
      obtain ⟨u1, h1⟩ := subscribe_step_wbuf fd a t
      obtain ⟨u2, h2⟩ := ih (subscribe_step fd a t)
      refine ⟨u1 ++ u2, ?_⟩
      rw [List.foldl_cons, h2, h1, List.append_assoc]

/-- Claim C7: when the (normalised) topic of the `i`-th SUBSCRIBE tuple
carries a non-empty retained message as the loop reaches it, those
bytes are staged into `wbuf` strictly before the SUBACK bytes of the
same SUBSCRIBE: the final buffer is the old bytes, then some loop
output containing the retained bytes, then the SUBACK encoding last. -/
theorem retained_staged_before_suback (enc : MqttPacket → List Nat) (e : IoEvent)
    (sol : Sol) (i : Nat) (hi : i < e.data.subscribe.tuples.length) (r : List Nat)
    (hr : ((sol_topic_get_or_create
             ((e.data.subscribe.tuples.take i).foldl (subscribe_step e.fd)
               (sol, false, [])).1
             (norm_topic_sub (e.data.subscribe.tuples.get ⟨i, hi⟩)).1).2).retained_msg
          = some r)
    (_hne : r ≠ []) :
    ∃ u v rcs1,
      ((subscribe_handler enc e sol).1.clients e.fd).wbuf
        = (sol.clients e.fd).wbuf ++ u ++ r ++ v
          ++ enc { emptyPacket with
                   header := header_of_byte SUBACK_B,
                   suback := ⟨e.data.subscribe.pkt_id, rcs1⟩ } := by
  obtain ⟨u, hu⟩ := subscribe_foldl_wbuf e.fd (e.data.subscribe.tuples.take i)
    (sol, false, [])
  have hstep := subscribe_step_wbuf_retained e.fd
    ((e.data.subscribe.tuples.take i).foldl (subscribe_step e.fd) (sol, false, []))
    (e.data.subscribe.tuples.get ⟨i, hi⟩) r hr
  obtain ⟨v, hv⟩ := subscribe_foldl_wbuf e.fd (e.data.subscribe.tuples.drop (i + 1))
    (subscribe_step e.fd
      ((e.data.subscribe.tuples.take i).foldl (subscribe_step e.fd) (sol, false, []))
      (e.data.subscribe.tuples.get ⟨i, hi⟩))
  have hsplit : e.data.subscribe.tuples
      = e.data.subscribe.tuples.take i
        ++ e.data.subscribe.tuples.get ⟨i, hi⟩ :: e.data.subscribe.tuples.drop (i + 1) := by
    rw [List.get_eq_getElem, ← List.drop_eq_getElem_cons hi]
    exact (List.take_append_drop i _).symm
  have hfold : e.data.subscribe.tuples.foldl (subscribe_step e.fd) (sol, false, [])
      = (e.data.subscribe.tuples.drop (i + 1)).foldl (subscribe_step e.fd)
          (subscribe_step e.fd
            ((e.data.subscribe.tuples.take i).foldl (subscribe_step e.fd) (sol, false, []))
            (e.data.subscribe.tuples.get ⟨i, hi⟩)) := by
    conv_lhs => rw [hsplit]
    rw [List.foldl_append, List.foldl_cons]
  refine ⟨u, v,
    (e.data.subscribe.tuples.foldl (subscribe_step e.fd) (sol, false, [])).2.2, ?_⟩
  have hfin : ((subscribe_handler enc e sol).1.clients e.fd).wbuf
      = ((e.data.subscribe.tuples.foldl (subscribe_step e.fd) (sol, false, [])).1.clients
          e.fd).wbuf
        ++ enc { emptyPacket with
                 header := header_of_byte SUBACK_B,
                 suback := ⟨e.data.subscribe.pkt_id,
                   (e.data.subscribe.tuples.foldl (subscribe_step e.fd)
                     (sol, false, [])).2.2⟩ } := by
    simp [subscribe_handler, setClient, Function.update_same]
  rw [hfin, hfold, hv, hstep, hu]

/-- A topic `"b/"` holding retained bytes `[9, 9]`. -/
def cexTopicC7 : Topic := ⟨[98, 47], [], some [9, 9]⟩

def cexSolC7 : Sol := { emptySol with topics := [cexTopicC7] }

/-- A SUBSCRIBE (packet id 5) for `"b"` at QoS 0. -/
def cexEventC7 : IoEvent :=
  ⟨0, { emptyPacket with subscribe := ⟨5, [⟨1, [98], 0⟩]⟩ }⟩

/-- Witness for claim C7: subscribing to `"b"` (normalised `"b/"`,
retained `[9, 9]`) stages the retained bytes before the SUBACK. -/
theorem retained_staged_before_suback_witness :
    ((sol_topic_get_or_create
        ((cexEventC7.data.subscribe.tuples.take 0).foldl (subscribe_step 0)
          (cexSolC7, false, [])).1
        (norm_topic_sub (cexEventC7.data.subscribe.tuples.get ⟨0, by decide⟩)).1).2).retained_msg
      = some [9, 9] ∧
    ([9, 9] : List Nat) ≠ [] ∧
    ∃ u v rcs1,
      ((subscribe_handler enc0 cexEventC7 cexSolC7).1.clients 0).wbuf
        = (cexSolC7.clients 0).wbuf ++ u ++ [9, 9] ++ v
          ++ enc0 { emptyPacket with
                    header := header_of_byte SUBACK_B,
                    suback := ⟨5, rcs1⟩ } :=
  ⟨by decide, by decide,
   retained_staged_before_suback enc0 cexEventC7 cexSolC7 0 (by decide) [9, 9]
     (by decide) (by decide)⟩

/-! ## The sticky wildcard flag in SUBSCRIBE (claim C10) -/

lemma topics_setClient (sol : Sol) (fd : Nat) (c : Client) :
    (setClient sol fd c).topics = sol.topics := rfl

lemma topics_topic_add (sol : Sol) (nm cid : List Nat) (fd qos : Nat) :
    (topic_add_subscriber sol nm cid fd qos).topics
      = sol.topics.map (fun t => if t.name == nm
          then { t with subscribers := subs_put t.subscribers ⟨cid, fd, qos⟩ } else t) := rfl

lemma topics_trie (sol : Sol) (pre : List Nat) (fd qos : Nat) :
    (trie_prefix_map sol pre fd qos).topics
      = sol.topics.map (fun t => if starts_with pre t.name
          then recursive_sub ((sol.clients fd).client_id) fd qos t else t) := rfl

/-- `hashtable_put` leaves the inserted record in the map. -/
lemma subs_put_mem (l : List TopicSub) (s : TopicSub) : s ∈ subs_put l s := by
  unfold subs_put
  split
  case isTrue h =>
    obtain ⟨x, hx, hkey⟩ := List.any_eq_true.mp h
    exact List.mem_map.mpr ⟨x, hx, by rw [if_pos hkey]⟩
  case isFalse h =>
    exact List.mem_append.mpr (Or.inr (List.mem_singleton.mpr rfl))

/-- The loop-carried `wildcard` flag after one iteration: the old flag
OR-ed with this tuple's `/#` test — it is never reset. -/
lemma subscribe_step_flag (fd : Nat) (a : Sol × Bool × List Nat) (tp : SubTuple) :
    (subscribe_step fd a tp).2.1 = (a.2.1 || (norm_topic_sub tp).2) := rfl

lemma norm_topic_sub_snd (tp : SubTuple) :
    (norm_topic_sub tp).2 = endsWildcard tp := by
  unfold norm_topic_sub
  split
  case isTrue h => exact h.symm
  case isFalse h =>
    have hb : endsWildcard tp = false := by
      cases hx : endsWildcard tp
      · rfl
      · exact absurd hx h
    split <;> exact hb.symm

/-- Once true, the wildcard flag stays true for the rest of the loop. -/
lemma subscribe_foldl_flag_true (fd : Nat) :
    ∀ (ts : List SubTuple) (a : Sol × Bool × List Nat), a.2.1 = true →
      ((ts.foldl (subscribe_step fd) a).2.1) = true := by
  intro ts
  induction ts with
  | nil => intro a h; simpa using h
  | cons t ts ih =>
      intro a h
      rw [List.foldl_cons]
      exact ih _ (by rw [subscribe_step_flag, h, Bool.true_or])

/-- A loop iteration that runs with the wildcard flag set installs the
client's subscriber record on every stored topic under the tuple's
normalised prefix. -/
lemma subscribe_step_wildcard_installs (fd : Nat) (a : Sol × Bool × List Nat)
    (tp : SubTuple) (hw : a.2.1 = true) :
    ∀ t' ∈ ((subscribe_step fd a tp).1).topics,
      starts_with (norm_topic_sub tp).1 t'.name = true →
      (⟨((a.1).clients fd).client_id, fd, tp.qos⟩ : TopicSub) ∈ t'.subscribers := by
  intro t' ht' hpre
  have hwtrue : (a.2.1 || (norm_topic_sub tp).2) = true := by rw [hw, Bool.true_or]
  unfold subscribe_step at ht'
  dsimp only at ht'
  rw [if_pos hwtrue] at ht'
  simp only [topics_setClient, topics_topic_add, topics_trie,
    clients_trie_client_id, clients_goc] at ht'
  obtain ⟨t2, ht2, rfl⟩ := List.mem_map.mp ht'
  obtain ⟨t1, ht1, rfl⟩ := List.mem_map.mp ht2
  by_cases hsw : starts_with (norm_topic_sub tp).1 t1.name = true
  · rw [if_pos hsw]
    split
    · exact subs_put_mem _ _
    · exact subs_put_mem _ _
  · exfalso
    rw [if_neg hsw] at hpre
    split at hpre
    · exact hsw hpre
    · exact hsw hpre

/-- Claim C10: in one SUBSCRIBE packet, once the `i`-th filter ends in
`/#`, every later filter `j` is also processed as a wildcard
subscription — the loop's `wildcard` flag is still true when tuple `j`
is reached (it is never reset, line 366 declares it outside the loop),
so the `j`-th iteration installs the client's subscriber record on
every stored topic under tuple `j`'s normalised prefix, even though
tuple `j` itself does not end in `/#`. -/
theorem wildcard_flag_sticky (fd : Nat) (sol : Sol) (ts : List SubTuple) (i j : Nat)
    (hij : i < j) (hj : j < ts.length)
    (hwild : endsWildcard (ts.get ⟨i, Nat.lt_trans hij hj⟩) = true) :
    ((ts.take j).foldl (subscribe_step fd) (sol, false, [])).2.1 = true ∧
    (∀ t' ∈ ((subscribe_step fd ((ts.take j).foldl (subscribe_step fd) (sol, false, []))
               (ts.get ⟨j, hj⟩)).1).topics,
       starts_with (norm_topic_sub (ts.get ⟨j, hj⟩)).1 t'.name = true →
       (⟨((((ts.take j).foldl (subscribe_step fd) (sol, false, [])).1).clients fd).client_id,
          fd, (ts.get ⟨j, hj⟩).qos⟩ : TopicSub) ∈ t'.subscribers) := by
  have hi : i < ts.length := Nat.lt_trans hij hj
  have h1 : ts.take (i + 1) = ts.take i ++ [ts.get ⟨i, hi⟩] := by
    rw [List.take_succ, List.getElem?_eq_getElem hi]
    simp [List.get_eq_getElem]
  have h2 : ts.take j = ts.take (i + 1) ++ ((ts.drop (i + 1)).take (j - (i + 1))) := by
    rw [← List.take_add]
    congr 1
    omega
  have hflag : ((ts.take j).foldl (subscribe_step fd) (sol, false, [])).2.1 = true := by
    rw [h2, List.foldl_append]
    apply subscribe_foldl_flag_true
    rw [h1, List.foldl_append, List.foldl_cons, List.foldl_nil, subscribe_step_flag,
      norm_topic_sub_snd, hwild, Bool.or_true]
  exact ⟨hflag, subscribe_step_wildcard_installs fd _ _ hflag⟩

/-- Tuples of a SUBSCRIBE: `"a/#"` followed by the plain filter
`"b"`. -/
def cexTsC10 : List SubTuple := [⟨3, [97, 47, 35], 0⟩, ⟨1, [98], 1⟩]

/-- Witness for claim C10: after the `"a/#"` tuple, the plain `"b"`
tuple still runs as a wildcard subscription. -/
theorem wildcard_flag_sticky_witness :
    endsWildcard (cexTsC10.get ⟨0, by decide⟩) = true ∧
    (((cexTsC10.take 1).foldl (subscribe_step 0) (emptySol, false, [])).2.1 = true ∧
     (∀ t' ∈ ((subscribe_step 0
                ((cexTsC10.take 1).foldl (subscribe_step 0) (emptySol, false, []))
                (cexTsC10.get ⟨1, by decide⟩)).1).topics,
        starts_with (norm_topic_sub (cexTsC10.get ⟨1, by decide⟩)).1 t'.name = true →
        (⟨((((cexTsC10.take 1).foldl (subscribe_step 0) (emptySol, false, [])).1).clients
             0).client_id, 0, (cexTsC10.get ⟨1, by decide⟩).qos⟩ : TopicSub)
          ∈ t'.subscribers)) :=
  ⟨by decide,
   wildcard_flag_sticky 0 emptySol cexTsC10 0 1 (by decide) (by decide) (by decide)⟩
